import Mathlib

/-!
Shallow embedding of the FinStart educational-content API (src/server.py).

Modelling conventions:
* Python float arithmetic is modelled exactly over `ℚ`; `round(x, 2)` is
  modelled as rounding to the nearest multiple of 1/100 (`round2`).
* Durations and exponents (`time`, `frequency`, `months`) are modelled as `ℕ`,
  matching every documented use; Python's `**` on them is `Monoid.npow`.
* A Python division that can raise `ZeroDivisionError` is modelled by the
  checked division `cdiv`, returning `Except.error` exactly when the
  denominator is zero, as the interpreter would fault there.
* MongoDB collections are modelled as in-memory lists inside `AppState`;
  each route handler is a function from a state (plus its request data and a
  timestamp standing for `datetime.utcnow()`) to a response and a new state.
  A raised exception is an `Except.error` response with the state unchanged,
  since the handlers raise before any write in those paths.
* The external LLM collaborator (`LlmChat.send_message`) and `json.loads`
  are inputs of the model: an `LlmOutcome` (normal response text or a thrown
  exception message) and an abstract parser `String → Option LessonData`.
-/

namespace Finstart

/-- The named numeric inputs a simulation request may carry
(`inputs.get(key, default)` in the code); `none` models an absent key.
`expenses` is the nested category→amount mapping of `budget_builder`. -/
structure SimInputs where
  principal : Option ℚ := none
  rate : Option ℚ := none
  time : Option ℕ := none
  frequency : Option ℕ := none
  months : Option ℕ := none
  monthly_investment : Option ℚ := none
  income : Option ℚ := none
  expenses : List (String × ℚ) := []
  deriving DecidableEq

/-- An output value: a number or a string (the `status` field of
`budget_builder`). -/
inductive Val where
  | num (q : ℚ)
  | str (s : String)
  deriving DecidableEq

/-- A simulation result mapping, as built by `calculate_simulation`. -/
abbrev Output := List (String × Val)

/-- Python's `round(x, 2)` modelled exactly: round to the nearest multiple
of 1/100. -/
def round2 (q : ℚ) : ℚ := (round (q * 100) : ℤ) / 100

/-- Checked division: Python's `/`, which raises `ZeroDivisionError` when the
denominator is zero. -/
def cdiv (a b : ℚ) : Except String ℚ :=
  if b = 0 then Except.error "division by zero" else Except.ok (a / b)

/-- The pure computation inside `calculate_simulation` (src/server.py,
lines 326-415): dispatch on the simulation kind and build the result mapping.
Divisions that the code leaves unguarded go through `cdiv`; divisions behind
a positivity guard cannot fault and use total division. -/
def computeResult (simType : String) (inputs : SimInputs) : Except String Output :=
  if simType = "compound_interest" then
    let principal := inputs.principal.getD 0
    let rate := inputs.rate.getD 0 / 100
    let time := inputs.time.getD 0
    let frequency := inputs.frequency.getD 12
    (cdiv rate (frequency : ℚ)).map (fun rpf =>
      let amount := principal * (1 + rpf) ^ (frequency * time)
      let interest := amount - principal
      [("final_amount", Val.num (round2 amount)),
       ("interest_earned", Val.num (round2 interest)),
       ("principal", Val.num principal),
       ("total_return_percentage",
         Val.num (if principal > 0 then round2 (interest / principal * 100) else 0))])
  else if simType = "simple_interest" then
    let principal := inputs.principal.getD 0
    let rate := inputs.rate.getD 0 / 100
    let time := inputs.time.getD 0
    let interest := principal * rate * (time : ℚ)
    let amount := principal + interest
    Except.ok
      [("final_amount", Val.num (round2 amount)),
       ("interest_earned", Val.num (round2 interest)),
       ("principal", Val.num principal)]
  else if simType = "emi_calculator" then
    let principal := inputs.principal.getD 0
    let rate := inputs.rate.getD 0 / 100 / 12
    let months := inputs.months.getD 0
    let emiE : Except String ℚ :=
      if rate > 0 then
        cdiv (principal * rate * (1 + rate) ^ months) ((1 + rate) ^ months - 1)
      else if months > 0 then Except.ok (principal / (months : ℚ)) else Except.ok 0
    emiE.map (fun emi =>
      let total_payment := emi * (months : ℚ)
      let total_interest := total_payment - principal
      [("emi", Val.num (round2 emi)),
       ("total_payment", Val.num (round2 total_payment)),
       ("total_interest", Val.num (round2 total_interest)),
       ("principal", Val.num principal)])
  else if simType = "sip_calculator" then
    let monthly_investment := inputs.monthly_investment.getD 0
    let rate := inputs.rate.getD 0 / 100 / 12
    let months := inputs.months.getD 0
    let future_value :=
      if rate > 0 then
        monthly_investment * (((1 + rate) ^ months - 1) / rate) * (1 + rate)
      else monthly_investment * (months : ℚ)
    let total_invested := monthly_investment * (months : ℚ)
    let returns := future_value - total_invested
    Except.ok
      [("future_value", Val.num (round2 future_value)),
       ("total_invested", Val.num (round2 total_invested)),
       ("returns", Val.num (round2 returns)),
       ("return_percentage",
         Val.num (if total_invested > 0 then round2 (returns / total_invested * 100) else 0))]
  else if simType = "budget_builder" then
    let income := inputs.income.getD 0
    let total_expenses := (inputs.expenses.map Prod.snd).sum
    let savings := income - total_expenses
    let savings_rate := if income > 0 then savings / income * 100 else 0
    Except.ok
      [("income", Val.num income),
       ("total_expenses", Val.num (round2 total_expenses)),
       ("savings", Val.num (round2 savings)),
       ("savings_rate", Val.num (round2 savings_rate)),
       ("status", Val.str (if savings ≥ 0 then "surplus" else "deficit"))]
  else
    Except.ok []

/-- One entry of the `simulations` collection (append-only history). -/
structure SimRecord where
  user_id : String
  simulation_type : String
  inputs : SimInputs
  outputs : Output
  created_at : ℕ
  deriving DecidableEq

/-- The single `progress` document (the system pins `user_id` to
"default_user"). -/
structure ProgressRecord where
  user_id : String := "default_user"
  completed_lessons : List String := []
  quiz_scores : List (String × ℚ) := []
  simulations_completed : List String := []
  last_active : ℕ := 0
  deriving DecidableEq

/-- A stored lesson document as built by the `generate_lesson` route. -/
structure StoredLesson where
  id : String
  module_id : String
  title : String
  content : String
  duration_minutes : ℕ
  key_points : List String
  real_example : String
  quiz_questions : List String
  daily_tip : String
  order : ℕ
  created_at : ℕ
  deriving DecidableEq

/-- The persistent state: the three MongoDB collections. `progress` is the
single default-user document (`none` = not yet created; a document created
by an upsert without an explicit `simulations_completed` field is modelled
with that field empty). -/
structure AppState where
  lessons : List (String × StoredLesson) := []
  progress : Option ProgressRecord := none
  simulations : List SimRecord := []
  deriving DecidableEq

/-- Route `POST /simulations/calculate` (src/server.py lines 323-426):
compute the result, append a history record, return the result. On a
division fault the exception propagates before the insert, so the state is
unchanged. -/
def calculate_simulation (st : AppState) (simType : String) (inputs : SimInputs)
    (now : ℕ) : Except String Output × AppState :=
  match computeResult simType inputs with
  | Except.error e => (Except.error e, st)
  | Except.ok result =>
      (Except.ok result,
       { st with simulations := st.simulations ++
          [{ user_id := "default_user", simulation_type := simType,
             inputs := inputs, outputs := result, created_at := now }] })

/-- MongoDB `$addToSet`: append only when absent. -/
def addToSet (l : List String) (x : String) : List String :=
  if x ∈ l then l else l ++ [x]

/-- Route `POST /progress/complete-lesson/{lesson_id}` (lines 294-305):
`$addToSet` the lesson id into `completed_lessons`, `$set` `last_active`,
upsert. Returns the acknowledgement `(success, lesson_id)`. -/
def complete_lesson (st : AppState) (lesson_id : String) (now : ℕ) :
    (Bool × String) × AppState :=
  let p : ProgressRecord :=
    match st.progress with
    | some p =>
        { p with completed_lessons := addToSet p.completed_lessons lesson_id,
                 last_active := now }
    | none =>
        { user_id := "default_user", completed_lessons := [lesson_id],
          quiz_scores := [], simulations_completed := [], last_active := now }
  ((true, lesson_id), { st with progress := some p })

/-- Overwrite-or-insert a key in an association list (MongoDB `$set` on the
dotted field `quiz_scores.<lesson_id>`). -/
def setScore (scores : List (String × ℚ)) (k : String) (v : ℚ) :
    List (String × ℚ) :=
  if scores.any (fun p => p.1 = k) then
    scores.map (fun p => if p.1 = k then (k, v) else p)
  else scores ++ [(k, v)]

/-- Route `POST /quiz/submit` (lines 307-321): `$set` the score under the
lesson's key and refresh `last_active`, upsert. Returns the echoed score and
lesson id. -/
def submit_quiz (st : AppState) (lesson_id : String) (score : ℚ) (now : ℕ) :
    (ℚ × String) × AppState :=
  let p : ProgressRecord :=
    match st.progress with
    | some p =>
        { p with quiz_scores := setScore p.quiz_scores lesson_id score,
                 last_active := now }
    | none =>
        { user_id := "default_user", completed_lessons := [],
          quiz_scores := [(lesson_id, score)], simulations_completed := [],
          last_active := now }
  ((score, lesson_id), { st with progress := some p })

/-- Route `GET /progress` (lines 274-292): return the document, creating the
zero-valued default one on first read. -/
def get_progress (st : AppState) (now : ℕ) : ProgressRecord × AppState :=
  match st.progress with
  | some p => (p, st)
  | none =>
      let p : ProgressRecord :=
        { user_id := "default_user", completed_lessons := [],
          quiz_scores := [], simulations_completed := [], last_active := now }
      (p, { st with progress := some p })

/-- The fields the generation collaborator is expected to return; `none`
models a JSON object missing that key (`dict.get` falls back to the
default). -/
structure LessonData where
  title : Option String := none
  content : Option String := none
  key_points : Option (List String) := none
  real_example : Option String := none
  daily_tip : Option String := none
  deriving DecidableEq

/-- Outcome of the collaborator call: a normal response text, or a thrown
exception with its message. -/
inductive LlmOutcome where
  | ok (response : String)
  | throws (msg : String)
  deriving DecidableEq

/-- The hardcoded fallback record built when `json.loads` fails
(src/server.py lines 197-204). -/
def fallbackLessonData (topic response : String) : LessonData :=
  { title := some topic,
    content := some (response.take 400),
    key_points := some ["Understand the basics", "Apply in real life", "Track progress"],
    real_example := some "Example scenario based on this concept.",
    daily_tip := some "Start small and stay consistent." }

/-- `generate_lesson_content` (src/server.py lines 163-209). The whole body
is inside `try/except Exception`: the `HTTPException` raised for a missing
API key is itself an `Exception`, so the outer handler catches it and
re-raises it wrapped (Starlette renders it as `500: API key not configured`
inside the generic message). A collaborator throw is wrapped the same way.
A `json.loads` failure is caught by the inner bare `except` and replaced by
the fallback record. `parseJson` abstracts `json.loads` restricted to the
expected object shape. -/
def generate_lesson_content (apiKey : Option String) (llm : LlmOutcome)
    (parseJson : String → Option LessonData) (topic : String) :
    Except String LessonData :=
  match apiKey with
  | none =>
      Except.error ("Failed to generate lesson: " ++ "500: API key not configured")
  | some _ =>
      match llm with
      | LlmOutcome.throws m => Except.error ("Failed to generate lesson: " ++ m)
      | LlmOutcome.ok response =>
          match parseJson response with
          | some d => Except.ok d
          | none => Except.ok (fallbackLessonData topic response)

/-- The slug applied to the topic when building a lesson id:
`topic.lower().replace(' ', '_')` — lowercase every character, then replace
each space by an underscore (a single-character replace is exactly a
per-character substitution, and lowercasing is per-character). -/
def slug (s : String) : String :=
  ⟨s.data.map (fun c => if c.toLower = ' ' then '_' else c.toLower)⟩

/-- The stored lesson id: `f"\x7brequest.module_id\x7d_\x7b...\x7d"`, i.e. the
module id verbatim, an underscore, and the slugified topic
(src/server.py line 250). -/
def mkLessonId (module_id topic : String) : String :=
  module_id ++ "_" ++ slug topic

/-- The lesson document the route builds from the collaborator's fields
(src/server.py lines 251-263). -/
def mkStoredLesson (module_id topic : String) (d : LessonData) (now : ℕ) :
    StoredLesson :=
  { id := mkLessonId module_id topic,
    module_id := module_id,
    title := d.title.getD topic,
    content := d.content.getD "",
    duration_minutes := 3,
    key_points := d.key_points.getD [],
    real_example := d.real_example.getD "",
    quiz_questions := [],
    daily_tip := d.daily_tip.getD "",
    order := 1,
    created_at := now }

/-- MongoDB `update_one({"id": id}, {"$set": lesson}, upsert=True)` on the
lessons collection: replace the first document with that id, else insert. -/
def upsertLesson (ls : List (String × StoredLesson)) (id : String)
    (l : StoredLesson) : List (String × StoredLesson) :=
  match ls with
  | [] => [(id, l)]
  | (k, v) :: rest =>
      if k = id then (id, l) :: rest else (k, v) :: upsertLesson rest id l

/-- The request body of `POST /lessons/generate`. -/
structure LessonGenerateRequest where
  module_id : String
  topic : String
  difficulty : String := "beginner"
  deriving DecidableEq

/-- Route `POST /lessons/generate` (src/server.py lines 244-272): call the
generator, build the document, upsert it by id, return it. An exception from
`generate_lesson_content` propagates before the upsert, leaving the store
unchanged. -/
def generate_lesson (st : AppState) (req : LessonGenerateRequest)
    (apiKey : Option String) (llm : LlmOutcome)
    (parseJson : String → Option LessonData) (now : ℕ) :
    Except String StoredLesson × AppState :=
  match generate_lesson_content apiKey llm parseJson req.topic with
  | Except.error e => (Except.error e, st)
  | Except.ok d =>
      let lesson := mkStoredLesson req.module_id req.topic d now
      (Except.ok lesson,
       { st with lessons := upsertLesson st.lessons (mkLessonId req.module_id req.topic) lesson })

/-- Numeric field lookup in a result mapping (0 when absent or non-numeric). -/
def getNum (o : Output) (k : String) : ℚ :=
  match o.lookup k with
  | some (Val.num q) => q
  | _ => 0

/-- Numeric field lookup through the `Except` layer. -/
def okGetNum (e : Except String Output) (k : String) : ℚ :=
  match e with
  | Except.ok o => getNum o k
  | Except.error _ => 0

/-- Whether a computation succeeded (no Python exception). -/
def isOkE (e : Except String Output) : Bool :=
  match e with
  | Except.ok _ => true
  | Except.error _ => false

/-- The completed-lessons list of the (single) progress document, empty when
the document does not exist yet. -/
def progressCompleted (st : AppState) : List String :=
  match st.progress with
  | some p => p.completed_lessons
  | none => []

/-- The simulations_completed list of the progress document, empty when the
document does not exist yet. -/
def simsCompleted (st : AppState) : List String :=
  match st.progress with
  | some p => p.simulations_completed
  | none => []

/-- The last_active timestamp of the progress document, when it exists. -/
def lastActive (st : AppState) : Option ℕ :=
  match st.progress with
  | some p => some p.last_active
  | none => none

/-! ### Helper lemmas -/

theorem round2_le_round2 {a b : ℚ} (h : a ≤ b) : round2 a ≤ round2 b := by
  have h1 : round (a * 100) ≤ round (b * 100) := by
    rw [round_eq, round_eq]
    exact Int.floor_le_floor (by linarith)
  have h2 : ((round (a * 100) : ℤ) : ℚ) ≤ ((round (b * 100) : ℤ) : ℚ) :=
    Int.cast_le.mpr h1
  unfold round2
  linarith

/-- Bernoulli: periodic compounding dominates simple interest. -/
theorem compound_dominates_simple (P R : ℚ) (T F : ℕ) (hP : 0 < P)
    (hR : 0 ≤ R) (hF : 1 ≤ F) :
    P + P * (R / 100) * (T : ℚ) ≤ P * (1 + (R / 100) / (F : ℚ)) ^ (F * T) := by
  have hF0 : (0 : ℚ) < (F : ℚ) := by exact_mod_cast hF
  have hFne : ((F : ℚ)) ≠ 0 := hF0.ne'
  have hx : (0 : ℚ) ≤ (R / 100) / (F : ℚ) := by positivity
  have hb : 1 + ((F * T : ℕ) : ℚ) * ((R / 100) / (F : ℚ)) ≤
      (1 + (R / 100) / (F : ℚ)) ^ (F * T) :=
    one_add_mul_le_pow (by linarith) (F * T)
  have hcast : ((F * T : ℕ) : ℚ) * ((R / 100) / (F : ℚ)) = (R / 100) * (T : ℚ) := by
    push_cast
    field_simp
    ring
  rw [hcast] at hb
  calc P + P * (R / 100) * (T : ℚ) = P * (1 + (R / 100) * (T : ℚ)) := by ring
    _ ≤ P * (1 + (R / 100) / (F : ℚ)) ^ (F * T) :=
        mul_le_mul_of_nonneg_left hb hP.le

/-! ### Claims -/

/-- C1. The claim says an emi_calculator invocation with months = 0 never
raises a division fault and outputs emi = 0 for every rate. The code only
guards the zero-rate branch: with a positive rate and months = 0 the
denominator `(1 + r)^0 - 1` is zero and Python raises `ZeroDivisionError`.
This theorem shows the fault (with the state unchanged, nothing logged) at
principal 1000, rate 12, months 0, and that the zero-rate branch does
return emi = 0 as documented. -/
theorem C1_emi_months_zero_division_fault (st : AppState) (now : ℕ) :
    calculate_simulation st "emi_calculator"
      { principal := some 1000, rate := some 12, months := some 0 } now =
      (Except.error "division by zero", st) ∧
    computeResult "emi_calculator"
      { principal := some 1000, rate := some 0, months := some 0 } =
      Except.ok [("emi", Val.num 0), ("total_payment", Val.num 0),
        ("total_interest", Val.num (-1000)), ("principal", Val.num 1000)] := by
  constructor
  · simp only [calculate_simulation, computeResult, String.reduceEq, reduceIte]
    norm_num [cdiv, Except.map]
  · simp only [computeResult, String.reduceEq, reduceIte]
    norm_num [cdiv, Except.map, round2, round_eq]

/-- C2. An unrecognized simulation kind yields the empty result mapping
(not an error) and still appends one history record carrying the user id,
the kind, the inputs, the empty outputs and the timestamp. -/
theorem C2_unknown_kind_empty_result_logged (st : AppState) (simType : String)
    (inputs : SimInputs) (now : ℕ)
    (h : simType ∉ ["compound_interest", "simple_interest", "emi_calculator",
      "sip_calculator", "budget_builder"]) :
    calculate_simulation st simType inputs now =
      (Except.ok [],
       { st with simulations := st.simulations ++
          [{ user_id := "default_user", simulation_type := simType,
             inputs := inputs, outputs := [], created_at := now }] }) := by
  simp only [List.mem_cons, List.not_mem_nil, or_false, not_or] at h
  obtain ⟨h1, h2, h3, h4, h5⟩ := h
  simp only [calculate_simulation, computeResult, if_neg h1, if_neg h2,
    if_neg h3, if_neg h4, if_neg h5]

theorem C2_unknown_kind_witness :
    ("retirement" ∉ ["compound_interest", "simple_interest", "emi_calculator",
      "sip_calculator", "budget_builder"]) ∧
    calculate_simulation {} "retirement" {} 7 =
      (Except.ok [],
       { ({} : AppState) with simulations := ({} : AppState).simulations ++
          [{ user_id := "default_user", simulation_type := "retirement",
             inputs := {}, outputs := [], created_at := 7 }] }) :=
  ⟨by decide, C2_unknown_kind_empty_result_logged {} "retirement" {} 7 (by decide)⟩

/-- C3. The compound_interest kind computes exactly the specified formulas
(with absent inputs defaulting to 0, frequency defaulting to 12), and the
total_return_percentage is the rounded interest/P·100 when P > 0 and
exactly 0 when P = 0 (the code guards the division by P). Stated for every
input mapping whose effective frequency is nonzero. -/
theorem C3_compound_interest_formulas (inputs : SimInputs)
    (hF : inputs.frequency.getD 12 ≠ 0) :
    computeResult "compound_interest" inputs =
      Except.ok
        [("final_amount", Val.num (round2 ((inputs.principal.getD 0) *
            (1 + ((inputs.rate.getD 0) / 100) / ((inputs.frequency.getD 12 : ℕ) : ℚ)) ^
              ((inputs.frequency.getD 12) * (inputs.time.getD 0))))),
         ("interest_earned", Val.num (round2 ((inputs.principal.getD 0) *
            (1 + ((inputs.rate.getD 0) / 100) / ((inputs.frequency.getD 12 : ℕ) : ℚ)) ^
              ((inputs.frequency.getD 12) * (inputs.time.getD 0)) -
            (inputs.principal.getD 0)))),
         ("principal", Val.num (inputs.principal.getD 0)),
         ("total_return_percentage", Val.num
           (if 0 < inputs.principal.getD 0 then
              round2 (((inputs.principal.getD 0) *
                (1 + ((inputs.rate.getD 0) / 100) / ((inputs.frequency.getD 12 : ℕ) : ℚ)) ^
                  ((inputs.frequency.getD 12) * (inputs.time.getD 0)) -
                (inputs.principal.getD 0)) / (inputs.principal.getD 0) * 100)
            else 0))] := by
  have hFQ : ((inputs.frequency.getD 12 : ℕ) : ℚ) ≠ 0 := Nat.cast_ne_zero.mpr hF
  simp only [computeResult, reduceIte, cdiv, if_neg hFQ, Except.map]

theorem C3_compound_interest_witness :
    (({ principal := some 1000, rate := some 10, time := some 1 } :
        SimInputs).frequency.getD 12 ≠ 0) ∧
    computeResult "compound_interest"
      { principal := some 1000, rate := some 10, time := some 1 } =
      Except.ok
        [("final_amount", Val.num (round2 (1000 * (1 + (10 / 100) / 12) ^ (12 * 1)))),
         ("interest_earned", Val.num (round2 (1000 * (1 + (10 / 100) / 12) ^ (12 * 1) - 1000))),
         ("principal", Val.num 1000),
         ("total_return_percentage", Val.num
           (if (0 : ℚ) < 1000 then
              round2 ((1000 * (1 + (10 / 100) / 12) ^ (12 * 1) - 1000) / 1000 * 100)
            else 0))] :=
  ⟨by decide, C3_compound_interest_formulas _ (by decide)⟩

/-- C4. For positive principal, nonnegative rate and frequency at least 1,
the compound_interest final_amount dominates the simple_interest
final_amount on the same principal, rate and time (both rounded, both
computed without a fault). -/
theorem C4_compound_ge_simple (P R : ℚ) (T F : ℕ) (hP : 0 < P) (hR : 0 ≤ R)
    (hF : 1 ≤ F) :
    isOkE (computeResult "compound_interest"
      { principal := some P, rate := some R, time := some T, frequency := some F }) = true ∧
    isOkE (computeResult "simple_interest"
      { principal := some P, rate := some R, time := some T }) = true ∧
    okGetNum (computeResult "simple_interest"
      { principal := some P, rate := some R, time := some T }) "final_amount" ≤
      okGetNum (computeResult "compound_interest"
        { principal := some P, rate := some R, time := some T, frequency := some F })
        "final_amount" := by
  have hFne : ((F : ℕ) : ℚ) ≠ 0 := by
    have h0 : (0 : ℚ) < (F : ℚ) := by exact_mod_cast hF
    exact h0.ne'
  refine ⟨?_, ?_, ?_⟩
  · simp only [computeResult, String.reduceEq, reduceIte, cdiv, Option.getD_some,
      if_neg hFne, Except.map, isOkE]
  · simp only [computeResult, String.reduceEq, reduceIte, isOkE]
  · simp only [computeResult, String.reduceEq, reduceIte, cdiv, Option.getD_some,
      if_neg hFne, Except.map, okGetNum, getNum, List.lookup, String.reduceBEq]
    exact round2_le_round2 (compound_dominates_simple P R T F hP hR hF)

theorem C4_compound_ge_simple_witness :
    (0 : ℚ) < 1000 ∧ (0 : ℚ) ≤ 10 ∧ (1 : ℕ) ≤ 12 ∧
    okGetNum (computeResult "simple_interest"
      { principal := some 1000, rate := some 10, time := some 1 }) "final_amount" ≤
      okGetNum (computeResult "compound_interest"
        { principal := some 1000, rate := some 10, time := some 1, frequency := some 12 })
        "final_amount" :=
  ⟨by norm_num, by norm_num, by norm_num,
    (C4_compound_ge_simple 1000 10 1 12 (by norm_num) (by norm_num) (by norm_num)).2.2⟩

/-- C5 counterexample. The code does not slugify the module id: the lesson
id is the module id verbatim followed by the slugified topic, so two calls
whose module ids differ only in letter case target different ids, and the
id differs from the fully-slugified id the claim predicts. -/
theorem C5_module_id_not_slugified :
    mkLessonId "Money-Basics" "Saving" ≠ mkLessonId "money-basics" "Saving" ∧
    mkLessonId "Money-Basics" "Saving" ≠ "money-basics_saving" := by
  constructor <;> decide

theorem lookup_upsertLesson (ls : List (String × StoredLesson)) (id : String)
    (l : StoredLesson) : List.lookup id (upsertLesson ls id l) = some l := by
  induction ls with
  | nil => simp [upsertLesson, List.lookup]
  | cons kv rest ih =>
      obtain ⟨k, v⟩ := kv
      by_cases hk : k = id
      · simp [upsertLesson, hk, List.lookup]
      · have hbeq : (id == k) = false := by simpa [beq_iff_eq] using Ne.symm hk
        simp only [upsertLesson, if_neg hk, List.lookup, hbeq]
        exact ih

theorem generate_lesson_content_of_ok (k r : String)
    (pj : String → Option LessonData) (t : String) :
    generate_lesson_content (some k) (LlmOutcome.ok r) pj t =
      Except.ok ((pj r).getD (fallbackLessonData t r)) := by
  unfold generate_lesson_content
  cases h : pj r <;> simp [h]

/-- C5 amended. The stored lesson id is the module id verbatim, an
underscore and the slugified topic (lowercased, spaces to underscores), so
two calls with byte-identical module id and topics equal up to the slug
target the same id, and the second upsert overwrites the first record. -/
theorem C5_amended_lesson_id_upsert (st : AppState)
    (m t1 t2 dif1 dif2 k r1 r2 : String) (pj : String → Option LessonData)
    (n1 n2 : ℕ) (h : slug t1 = slug t2) :
    mkLessonId m t1 = mkLessonId m t2 ∧
    List.lookup (mkLessonId m t1)
      ((generate_lesson
          ((generate_lesson st ⟨m, t1, dif1⟩ (some k) (LlmOutcome.ok r1) pj n1).2)
          ⟨m, t2, dif2⟩ (some k) (LlmOutcome.ok r2) pj n2).2).lessons =
      some (mkStoredLesson m t2 ((pj r2).getD (fallbackLessonData t2 r2)) n2) := by
  have hid : mkLessonId m t1 = mkLessonId m t2 := by
    unfold mkLessonId
    rw [h]
  refine ⟨hid, ?_⟩
  rw [hid]
  simp only [generate_lesson, generate_lesson_content_of_ok]
  exact lookup_upsertLesson _ _ _

theorem C5_amended_witness :
    slug "Saving Money" = slug "saving money" ∧
    (mkLessonId "money-basics" "Saving Money" =
        mkLessonId "money-basics" "saving money" ∧
     List.lookup (mkLessonId "money-basics" "Saving Money")
       ((generate_lesson
           ((generate_lesson {} ⟨"money-basics", "Saving Money", "beginner"⟩
               (some "key") (LlmOutcome.ok "one") (fun _ => none) 1).2)
           ⟨"money-basics", "saving money", "beginner"⟩
           (some "key") (LlmOutcome.ok "two") (fun _ => none) 2).2).lessons =
       some (mkStoredLesson "money-basics" "saving money"
         (((fun _ => (none : Option LessonData)) "two").getD
           (fallbackLessonData "saving money" "two")) 2)) :=
  ⟨by decide,
    C5_amended_lesson_id_upsert {} "money-basics" "Saving Money" "saving money"
      "beginner" "beginner" "key" "one" "two" (fun _ => none) 1 2 (by decide)⟩

theorem mem_addToSet_self (l : List String) (x : String) : x ∈ addToSet l x := by
  unfold addToSet
  split
  · assumption
  · simp

theorem addToSet_of_mem {l : List String} {x : String} (h : x ∈ l) :
    addToSet l x = l := if_pos h

theorem count_addToSet_self (l : List String) (x : String) (h : l.count x ≤ 1) :
    (addToSet l x).count x = 1 := by
  unfold addToSet
  split
  · next hmem => have := List.count_pos_iff.mpr hmem; omega
  · next hmem => simp [List.count_eq_zero.mpr hmem]

/-- C6. complete_lesson is idempotent on the completed set: starting from
any progress state satisfying the documented set invariant (the lesson is
recorded at most once), two calls leave the lesson recorded exactly once,
while each call refreshes last_active to its own timestamp. -/
theorem C6_complete_lesson_idempotent (st : AppState) (L : String)
    (n1 n2 : ℕ) (h : (progressCompleted st).count L ≤ 1) :
    (progressCompleted (complete_lesson (complete_lesson st L n1).2 L n2).2).count L = 1 ∧
    lastActive (complete_lesson st L n1).2 = some n1 ∧
    lastActive (complete_lesson (complete_lesson st L n1).2 L n2).2 = some n2 := by
  cases hp : st.progress with
  | none => simp [complete_lesson, hp, progressCompleted, lastActive, addToSet]
  | some p =>
      refine ⟨?_, by simp [complete_lesson, hp, lastActive],
        by simp [complete_lesson, hp, lastActive]⟩
      have h0 : p.completed_lessons.count L ≤ 1 := by
        simpa [progressCompleted, hp] using h
      simp only [complete_lesson, hp, progressCompleted]
      rw [addToSet_of_mem (mem_addToSet_self _ _)]
      exact count_addToSet_self _ _ h0

theorem C6_complete_lesson_witness :
    (progressCompleted {}).count "lesson-1" ≤ 1 ∧
    ((progressCompleted
        (complete_lesson (complete_lesson {} "lesson-1" 1).2 "lesson-1" 2).2).count
        "lesson-1" = 1 ∧
     lastActive (complete_lesson {} "lesson-1" 1).2 = some 1 ∧
     lastActive (complete_lesson (complete_lesson {} "lesson-1" 1).2 "lesson-1" 2).2 =
       some 2) :=
  ⟨by decide, C6_complete_lesson_idempotent {} "lesson-1" 1 2 (by decide)⟩

/-- C7. When the collaborator response does not parse as JSON, the route
does not fail: it stores (and returns) the degraded record whose title is
the requested topic, whose content is the first 400 characters of the raw
response, and whose remaining fields are the generic placeholders. -/
theorem C7_parse_failure_fallback (st : AppState) (k m t dif resp : String)
    (pj : String → Option LessonData) (now : ℕ) (h : pj resp = none) :
    generate_lesson st ⟨m, t, dif⟩ (some k) (LlmOutcome.ok resp) pj now =
      (Except.ok (mkStoredLesson m t (fallbackLessonData t resp) now),
       { st with lessons := (upsertLesson st.lessons (mkLessonId m t)
          (mkStoredLesson m t (fallbackLessonData t resp) now)) }) ∧
    (mkStoredLesson m t (fallbackLessonData t resp) now).title = t ∧
    (mkStoredLesson m t (fallbackLessonData t resp) now).content = resp.take 400 ∧
    (mkStoredLesson m t (fallbackLessonData t resp) now).key_points =
      ["Understand the basics", "Apply in real life", "Track progress"] ∧
    (mkStoredLesson m t (fallbackLessonData t resp) now).real_example =
      "Example scenario based on this concept." ∧
    (mkStoredLesson m t (fallbackLessonData t resp) now).daily_tip =
      "Start small and stay consistent." := by
  refine ⟨?_, ?_, ?_, ?_, ?_, ?_⟩
  · simp only [generate_lesson, generate_lesson_content_of_ok, h, Option.getD_none]
  all_goals simp [mkStoredLesson, fallbackLessonData]

theorem C7_parse_failure_witness :
    ((fun _ => (none : Option LessonData)) "raw text" = none) ∧
    ((generate_lesson {} ⟨"money-basics", "Budgeting", "beginner"⟩ (some "key")
        (LlmOutcome.ok "raw text") (fun _ => none) 5 =
      (Except.ok (mkStoredLesson "money-basics" "Budgeting"
          (fallbackLessonData "Budgeting" "raw text") 5),
       { ({} : AppState) with lessons := (upsertLesson ({} : AppState).lessons
          (mkLessonId "money-basics" "Budgeting")
          (mkStoredLesson "money-basics" "Budgeting"
            (fallbackLessonData "Budgeting" "raw text") 5)) })) ∧
     (mkStoredLesson "money-basics" "Budgeting"
        (fallbackLessonData "Budgeting" "raw text") 5).title = "Budgeting" ∧
     (mkStoredLesson "money-basics" "Budgeting"
        (fallbackLessonData "Budgeting" "raw text") 5).content = "raw text".take 400 ∧
     (mkStoredLesson "money-basics" "Budgeting"
        (fallbackLessonData "Budgeting" "raw text") 5).key_points =
       ["Understand the basics", "Apply in real life", "Track progress"] ∧
     (mkStoredLesson "money-basics" "Budgeting"
        (fallbackLessonData "Budgeting" "raw text") 5).real_example =
       "Example scenario based on this concept." ∧
     (mkStoredLesson "money-basics" "Budgeting"
        (fallbackLessonData "Budgeting" "raw text") 5).daily_tip =
       "Start small and stay consistent.") :=
  ⟨rfl, C7_parse_failure_fallback {} "key" "money-basics" "Budgeting" "beginner"
    "raw text" (fun _ => none) 5 rfl⟩

/-- C8. A missing generation credential fails the route with the
key-not-configured error response; a collaborator throw fails it with the
generic wrapped message; the two responses are distinct (whenever the
thrown message is not itself the literal key-not-configured text), and in
both cases the state — in particular the lesson store — is unchanged. -/
theorem C8_unconfigured_vs_upstream (st : AppState)
    (req : LessonGenerateRequest) (k m : String) (llm : LlmOutcome)
    (pj : String → Option LessonData) (now : ℕ)
    (hm : m ≠ "500: API key not configured") :
    generate_lesson st req none llm pj now =
      (Except.error ("Failed to generate lesson: " ++ "500: API key not configured"), st) ∧
    generate_lesson st req (some k) (LlmOutcome.throws m) pj now =
      (Except.error ("Failed to generate lesson: " ++ m), st) ∧
    (Except.error ("Failed to generate lesson: " ++ "500: API key not configured") :
        Except String StoredLesson) ≠
      Except.error ("Failed to generate lesson: " ++ m) := by
  refine ⟨rfl, rfl, ?_⟩
  intro hEq
  apply hm
  have h1 : ("Failed to generate lesson: " ++ "500: API key not configured" : String) =
      "Failed to generate lesson: " ++ m := by
    injection hEq
  have h2 : ("Failed to generate lesson: " : String).data ++
      ("500: API key not configured" : String).data =
      ("Failed to generate lesson: " : String).data ++ m.data := by
    rw [← String.data_append, ← String.data_append, h1]
  exact (congrArg String.mk (List.append_cancel_left h2)).symm

theorem C8_unconfigured_vs_upstream_witness :
    ("upstream timeout" : String) ≠ "500: API key not configured" ∧
    (generate_lesson {} ⟨"m1", "t1", "beginner"⟩ none (LlmOutcome.ok "r")
        (fun _ => none) 0 =
      (Except.error ("Failed to generate lesson: " ++ "500: API key not configured"),
       ({} : AppState)) ∧
     generate_lesson {} ⟨"m1", "t1", "beginner"⟩ (some "key")
        (LlmOutcome.throws "upstream timeout") (fun _ => none) 0 =
      (Except.error ("Failed to generate lesson: " ++ "upstream timeout"),
       ({} : AppState)) ∧
     (Except.error ("Failed to generate lesson: " ++ "500: API key not configured") :
        Except String StoredLesson) ≠
      Except.error ("Failed to generate lesson: " ++ "upstream timeout")) :=
  ⟨by decide, C8_unconfigured_vs_upstream {} ⟨"m1", "t1", "beginner"⟩ "key"
    "upstream timeout" (LlmOutcome.ok "r") (fun _ => none) 0 (by decide)⟩

/-- C9. No operation writes the simulations_completed field: running any
simulation (any kind, any inputs), completing a lesson, submitting a quiz
score and reading progress all leave it exactly as it was (empty right
after lazy initialization). -/
theorem C9_simulations_completed_never_written (st : AppState)
    (simType : String) (inputs : SimInputs) (L lid : String) (score : ℚ)
    (now : ℕ) :
    simsCompleted (calculate_simulation st simType inputs now).2 = simsCompleted st ∧
    simsCompleted (complete_lesson st L now).2 = simsCompleted st ∧
    simsCompleted (submit_quiz st lid score now).2 = simsCompleted st ∧
    simsCompleted (get_progress st now).2 = simsCompleted st := by
  refine ⟨?_, ?_, ?_, ?_⟩
  · unfold calculate_simulation
    cases computeResult simType inputs <;> rfl
  · cases hp : st.progress <;> simp [complete_lesson, hp, simsCompleted]
  · cases hp : st.progress <;> simp [submit_quiz, hp, simsCompleted]
  · cases hp : st.progress <;> simp [get_progress, hp, simsCompleted]

/-- C10. complete_lesson never consults the lesson store: it echoes a
success acknowledgement for every lesson id (stored or not), adds the id to
the completed set, and both the acknowledgement and the resulting progress
document are the same whatever the lesson store contains. -/
theorem C10_complete_lesson_no_existence_check (st : AppState) (L : String)
    (now : ℕ) (ls : List (String × StoredLesson)) :
    (complete_lesson st L now).1 = (true, L) ∧
    L ∈ progressCompleted (complete_lesson st L now).2 ∧
    (complete_lesson { st with lessons := ls } L now).1 =
      (complete_lesson st L now).1 ∧
    (complete_lesson { st with lessons := ls } L now).2.progress =
      (complete_lesson st L now).2.progress := by
  refine ⟨rfl, ?_, rfl, rfl⟩
  cases hp : st.progress <;>
    simp [complete_lesson, hp, progressCompleted, mem_addToSet_self]

end Finstart

